import Mathlib

/-!
Verification of the live-delivery subsystem of the tele-chat repository.

The server side is embedded from `src/unnamed/part_002` (the Express route
registration plus the WebSocket server): the connection registry
`wsConnections : Map<string, WebSocket>` together with the `ws.on('message')`
and `ws.on('close')` handlers, the `new_message` broadcast loop of
`POST /api/conversations/:id/messages`, and the typing-indicator relay.
The client side is embedded from `src/client/src/hooks/useWebSocket.ts`
(reconnection backoff in `ws.onclose`, and `handleMessage`, which reacts to
pushed events by invalidating the react-query cache).

JavaScript `Map` objects are modelled as association lists with the
insertion-order semantics of `Map.prototype.set` (update in place when the
key is present, append otherwise) and `Map.prototype.delete`.  JavaScript
string truthiness (`if (userId)`) is modelled explicitly: `undefined`/`null`
becomes `none` and the empty string is falsy.
-/

namespace TeleChat

/-- A live WebSocket transport handle.  `readyState` mirrors the numeric
`ws.readyState` field; the broadcast code only compares it with
`WebSocket.OPEN`. -/
structure WSocket where
  sockId : Nat
  readyState : Nat
deriving DecidableEq, Repr

/-- `WebSocket.OPEN` readiness constant of the ws library. -/
def WS_OPEN : Nat := 1

/-- The connection registry `wsConnections : Map<string, WebSocket>`
(src/unnamed/part_002 line 14), as an association list in insertion order. -/
abbrev Registry := List (String × WSocket)

/-- `Map.prototype.set`: update the first entry with the key in place,
otherwise append the new entry at the end. -/
def mapSet : Registry → String → WSocket → Registry
  | [], u, w => [(u, w)]
  | e :: rest, u, w => if e.1 = u then (u, w) :: rest else e :: mapSet rest u w

/-- `Map.prototype.delete`: remove the entry with the key. -/
def mapDelete : Registry → String → Registry
  | [], _ => []
  | e :: rest, u => if e.1 = u then mapDelete rest u else e :: mapDelete rest u

/-- `Map.prototype.get`: first entry with the key, if any. -/
def mapGet : Registry → String → Option WSocket
  | [], _ => none
  | e :: rest, u => if e.1 = u then some e.2 else mapGet rest u

/-- Number of registry entries stored for a given user id. -/
def countKey (reg : Registry) (u : String) : Nat :=
  reg.countP (fun e => e.1 == u)

/-- Registration performed by the auth handler:
`wsConnections.set(userId, ws)` (src/unnamed/part_002 line 230). -/
def registerConn (reg : Registry) (u : String) (w : WSocket) : Registry :=
  mapSet reg u w

/-- Deregistration performed by the close handler:
`wsConnections.delete(userId)` (src/unnamed/part_002 line 265).  The delete
is unconditional: the handler never checks that the entry still points at
the closing socket. -/
def unregisterConn (reg : Registry) (u : String) : Registry :=
  mapDelete reg u

/-- A registry operation of the kinds the server performs: `register` on a
successful auth event, `unregister` on socket close. -/
inductive RegOp where
  | register (u : String) (w : WSocket)
  | unregister (u : String)

/-- Apply one registry operation. -/
def applyOp (reg : Registry) : RegOp → Registry
  | .register u w => registerConn reg u w
  | .unregister u => unregisterConn reg u

/-- Apply a sequence of registry operations starting from `reg`. -/
def applyOps (reg : Registry) (ops : List RegOp) : Registry :=
  ops.foldl applyOp reg

/-- JavaScript truthiness of a string-or-undefined value: `undefined` and
the empty string are falsy. -/
def truthyStr : Option String → Bool
  | some s => s != ""
  | none => false

/-- Per-socket session state of the `wss.on('connection')` closure: the
`let userId: string | null = null` variable (src/unnamed/part_002 line 221).
`none` models both `null` and `undefined`. -/
structure SessionState where
  userId : Option String
deriving DecidableEq, Repr

/-- A parsed inbound client-to-server frame (the result of
`JSON.parse(data.toString())`), restricted to the fields the handler reads.
A missing field is `none`. -/
structure InFrame where
  type : String
  userId : Option String
  conversationId : Option String
  isTyping : Option Bool
deriving DecidableEq, Repr

/-- A conversation as the broadcast code uses it: the list
`conversation.participants.map(p => p.userId)` of participant user ids. -/
structure Conv where
  participants : List String
deriving DecidableEq, Repr

/-- The persisted message record returned by `storage.createMessage`
(id is a generated uuid primary key; `createdAt` and the sender profile are
not read by the code under verification and are omitted). -/
structure MessageRec where
  id : String
  conversationId : String
  senderId : String
  content : String
deriving DecidableEq, Repr

/-- A server-to-client event payload written to a socket. -/
inductive ServerEvent where
  | newMessageEvt (conversationId : String) (msg : MessageRec)
  | typingEvt (conversationId : String) (userId : String) (isTyping : Option Bool)
deriving DecidableEq, Repr

/-- One `ws.send` performed by the server: the participant id the loop was
visiting, the socket written to, and the serialized payload. -/
structure Write where
  recipient : String
  target : WSocket
  event : ServerEvent
deriving DecidableEq, Repr

/-- The typing-indicator relay (src/unnamed/part_002 lines 240-254):
filter the sender out of the participant id list, then send the typing
event to every participant whose registered socket is `OPEN`. -/
def typingRelay (reg : Registry) (participants : List String) (cid : String)
    (senderId : String) (isTyping : Option Bool) : List Write :=
  (participants.filter (fun pid => pid != senderId)).filterMap (fun pid =>
    match mapGet reg pid with
    | some pws =>
        if pws.readyState = WS_OPEN then
          some ⟨pid, pws, .typingEvt cid senderId isTyping⟩
        else none
    | none => none)

/-- The `ws.on('message')` handler (src/unnamed/part_002 lines 223-261).
`frame = none` models a payload on which `JSON.parse` throws: the catch
block only logs, so nothing changes and no write is emitted.  On an `auth`
frame the session variable is assigned `message.userId` unconditionally
(line 228) and the registry is updated only when that value is truthy
(lines 229-232).  On a `typing` frame with a truthy session userId, the
conversation is looked up in storage and the relay runs (lines 235-257);
a falsy or missing conversation produces no writes.  Returns the new
session state, the new registry, and the writes performed. -/
def handleWsFrame (storage : String → Option Conv) (ws : WSocket)
    (reg : Registry) (st : SessionState) (frame : Option InFrame) :
    SessionState × Registry × List Write :=
  match frame with
  | none => (st, reg, [])
  | some f =>
    let st1 := if f.type = "auth" then ⟨f.userId⟩ else st
    let reg1 :=
      if f.type = "auth" then
        match f.userId with
        | some u => if u = "" then reg else registerConn reg u ws
        | none => reg
      else reg
    let writes :=
      if f.type = "typing" then
        match st1.userId with
        | some u =>
          if u = "" then []
          else
            match f.conversationId with
            | some cid =>
              match storage cid with
              | some conv => typingRelay reg1 conv.participants cid u f.isTyping
              | none => []
            | none => []
        | none => []
      else []
    (st1, reg1, writes)

/-- The `ws.on('close')` handler (src/unnamed/part_002 lines 263-268):
`if (userId) wsConnections.delete(userId)`. -/
def handleWsClose (reg : Registry) (st : SessionState) : Registry :=
  match st.userId with
  | some u => if u = "" then reg else unregisterConn reg u
  | none => reg

/-- The `new_message` broadcast loop of `POST /api/conversations/:id/messages`
(src/unnamed/part_002 lines 193-205): for each participant id, in order,
send the event when the registry holds an `OPEN` socket for it; otherwise
only log.  The loop iterates over all participants — it does not exclude
the sender. -/
def broadcastNewMessage (reg : Registry) (participantIds : List String)
    (cid : String) (m : MessageRec) : List Write :=
  participantIds.filterMap (fun pid =>
    match mapGet reg pid with
    | some pws =>
        if pws.readyState = WS_OPEN then
          some ⟨pid, pws, .newMessageEvt cid m⟩
        else none
    | none => none)

/-- Outcome of the `POST /api/conversations/:id/messages` handler: HTTP
status, response body (the persisted message on success), and the socket
writes performed. -/
structure SendOutcome where
  status : Nat
  body : Option MessageRec
  writes : List Write
deriving DecidableEq, Repr

/-- The `POST /api/conversations/:id/messages` handler
(src/unnamed/part_002 lines 165-213).  The collaborator results are passed
in: `createResult` is `storage.createMessage` and `convResult` is
`storage.getConversation` during the broadcast, each either a value or a
thrown error.  The entire body sits in one `try`; any throw reaches the
catch block, which answers `500` — including a conversation-lookup throw
that happens after the message was already persisted.  A conversation
lookup that resolves to `undefined` merely skips the broadcast and still
answers `200` with the message. -/
def postMessageHandler (isParticipant : Bool)
    (createResult : Except Unit MessageRec)
    (convResult : Except Unit (Option Conv))
    (reg : Registry) (cid : String) : SendOutcome :=
  if !isParticipant then ⟨403, none, []⟩
  else
    match createResult with
    | .error _ => ⟨500, none, []⟩
    | .ok m =>
      match convResult with
      | .error _ => ⟨500, none, []⟩
      | .ok none => ⟨200, some m, []⟩
      | .ok (some conv) => ⟨200, some m, broadcastNewMessage reg conv.participants cid m⟩

/-- `maxReconnectAttempts = 5` (src/client/src/hooks/useWebSocket.ts line 14). -/
def maxReconnectAttempts : Nat := 5

/-- Client-side connection state of the `useWebSocket` hook: the
`reconnectAttempts` ref and the `isConnected` flag. -/
structure ClientConn where
  reconnectAttempts : Nat
  isConnected : Bool
deriving DecidableEq, Repr

/-- The client `ws.onclose` handler (useWebSocket.ts lines 39-51):
clear the connected flag; when the attempt count is below the ceiling,
schedule exactly one reconnect timer with delay
`Math.pow(2, reconnectAttempts) * 1000`, else schedule nothing.  The second
component is the delay of the scheduled timer, `none` when no reconnect is
scheduled. -/
def wsOnClose (st : ClientConn) : ClientConn × Option Nat :=
  ({ st with isConnected := false },
   if st.reconnectAttempts < maxReconnectAttempts then
     some (2 ^ st.reconnectAttempts * 1000)
   else none)

/-- Firing of the scheduled reconnect timer (useWebSocket.ts lines 46-49):
increment the attempt count, then `connect()`. -/
def reconnectTimerFire (st : ClientConn) : ClientConn :=
  { st with reconnectAttempts := st.reconnectAttempts + 1 }

/-- The client `ws.onopen` handler (useWebSocket.ts lines 27-37): mark
connected and reset the attempt count before sending the auth event. -/
def wsOnOpen (_st : ClientConn) : ClientConn :=
  { reconnectAttempts := 0, isConnected := true }

/-- The client react-query cache entry for one conversation's message-list
query: the cached list and whether it has been invalidated (a stale entry
is refetched from the REST endpoint). -/
structure QueryCache where
  messages : List MessageRec
  stale : Bool
deriving DecidableEq, Repr

/-- A parsed server-to-client frame as `handleMessage` reads it. -/
structure ClientFrame where
  type : String
  conversationId : Option String
  message : Option MessageRec
deriving DecidableEq, Repr

/-- The client `handleMessage` (useWebSocket.ts lines 71-94): on a
`new_message` frame with a truthy conversationId it invalidates the
message-list query (and dispatches a DOM event); it never inserts the
pushed payload into the cached list itself.  `typing` and unknown frames
leave the cache untouched. -/
def clientHandleMessage (c : QueryCache) (f : ClientFrame) : QueryCache :=
  if f.type = "new_message" then
    if truthyStr f.conversationId then { c with stale := true } else c
  else c

/-- React-query refetch of an invalidated message-list query: the cache is
replaced by the list the REST endpoint returns. -/
def refetchMessages (server : List MessageRec) (_c : QueryCache) : QueryCache :=
  ⟨server, false⟩

/-! ### Registry counting lemmas -/

theorem countKey_nil (u : String) : countKey [] u = 0 := rfl

theorem countKey_cons (e : String × WSocket) (rest : Registry) (u : String) :
    countKey (e :: rest) u = countKey rest u + if e.1 = u then 1 else 0 := by
  simp [countKey, List.countP_cons]

theorem countKey_mapSet_of_ne (reg : Registry) (u k : String) (w : WSocket)
    (h : k ≠ u) : countKey (mapSet reg u w) k = countKey reg k := by
  induction reg with
  | nil => simp [mapSet, countKey_cons, countKey_nil, Ne.symm h]
  | cons e rest ih =>
    by_cases he : e.1 = u
    · simp [mapSet, he, countKey_cons]
    · simp [mapSet, he, countKey_cons, ih]

theorem countKey_mapSet_self (reg : Registry) (u : String) (w : WSocket) :
    countKey (mapSet reg u w) u = max 1 (countKey reg u) := by
  induction reg with
  | nil => simp [mapSet, countKey_cons, countKey_nil]
  | cons e rest ih =>
    by_cases he : e.1 = u
    · simp [mapSet, he, countKey_cons]
    · simp [mapSet, he, countKey_cons, ih]

theorem countKey_mapDelete_self (reg : Registry) (u : String) :
    countKey (mapDelete reg u) u = 0 := by
  induction reg with
  | nil => rfl
  | cons e rest ih =>
    by_cases he : e.1 = u
    · simp [mapDelete, he, ih]
    · simp [mapDelete, he, countKey_cons, ih]

theorem countKey_mapDelete_of_ne (reg : Registry) (u k : String) (h : k ≠ u) :
    countKey (mapDelete reg u) k = countKey reg k := by
  induction reg with
  | nil => rfl
  | cons e rest ih =>
    by_cases he : e.1 = u
    · simp [mapDelete, he, countKey_cons, ih, Ne.symm h]
    · simp [mapDelete, he, countKey_cons, ih]

theorem countKey_applyOp_le (reg : Registry) (op : RegOp) (k : String)
    (h : countKey reg k ≤ 1) : countKey (applyOp reg op) k ≤ 1 := by
  cases op with
  | register u w =>
    by_cases hk : k = u
    · subst hk
      simp only [applyOp, registerConn, countKey_mapSet_self]
      omega
    · simpa [applyOp, registerConn, countKey_mapSet_of_ne reg u k _ hk] using h
  | unregister u =>
    by_cases hk : k = u
    · subst hk
      simp [applyOp, unregisterConn, countKey_mapDelete_self]
    · simpa [applyOp, unregisterConn, countKey_mapDelete_of_ne reg u k hk] using h

theorem countKey_applyOps_le (ops : List RegOp) (reg : Registry)
    (h : ∀ k, countKey reg k ≤ 1) : ∀ k, countKey (applyOps reg ops) k ≤ 1 := by
  induction ops generalizing reg with
  | nil => exact h
  | cons op rest ih =>
    intro k
    exact ih (applyOp reg op) (fun k' => countKey_applyOp_le reg op k' (h k')) k

theorem mapGet_mapDelete_self (reg : Registry) (u : String) :
    mapGet (mapDelete reg u) u = none := by
  induction reg with
  | nil => rfl
  | cons e rest ih =>
    by_cases he : e.1 = u
    · simp [mapDelete, he, ih]
    · simp [mapDelete, he, mapGet, ih]

/-- Evaluation of the `ws.on('message')` handler on a well-formed `auth`
frame carrying a truthy userId: the identity is rebound and the registry
entry is set; no writes occur. -/
theorem handleWsFrame_auth (storage : String → Option Conv) (ws : WSocket)
    (reg : Registry) (st : SessionState) (u : String) (h : u ≠ "") :
    handleWsFrame storage ws reg st (some ⟨"auth", some u, none, none⟩) =
      (⟨some u⟩, registerConn reg u ws, []) := by
  simp [handleWsFrame, h, show ("auth" : String) ≠ "typing" from by decide]

/-!  ### Claim theorems -/

/-- C1: for every sequence of register (auth handler) and unregister
(close handler) operations on the connection registry, starting from the
initially empty `wsConnections` map, the registry holds at most one entry
for any single userId at any point of the sequence, so a lookup of that
userId retrieves at most one transport handle. -/
theorem c1_registry_at_most_one_handle (ops : List RegOp) (u : String) :
    countKey (applyOps [] ops) u ≤ 1 :=
  countKey_applyOps_le ops [] (fun _ => Nat.le_of_eq rfl |>.trans (Nat.zero_le 1)) u

/-- C2 counterexample: register handle A for user "u", then handle B (the
newer connection), then run the close handler of the older socket, whose
session is still bound to "u".  The claim says the registry still returns
handle B; in fact the close handler deletes unconditionally and the lookup
returns nothing. -/
theorem c2_counterexample :
    mapGet (handleWsClose
        (registerConn (registerConn [] "u" ⟨1, WS_OPEN⟩) "u" ⟨2, WS_OPEN⟩)
        ⟨some "u"⟩) "u" = none ∧
    mapGet (handleWsClose
        (registerConn (registerConn [] "u" ⟨1, WS_OPEN⟩) "u" ⟨2, WS_OPEN⟩)
        ⟨some "u"⟩) "u" ≠ some ⟨2, WS_OPEN⟩ := by
  constructor <;> decide

/-- C2 amended: the close handler has no stale-unregister guard — it
deletes the userId key unconditionally (`wsConnections.delete(userId)`).
So when the close of an older socket bound to userId runs after
`register(userId, handleB)`, the entry for userId is removed and lookup
returns nothing (not handleB). -/
theorem c2_amended_close_deletes_unconditionally (reg : Registry) (u : String)
    (h : u ≠ "") : mapGet (handleWsClose reg ⟨some u⟩) u = none := by
  simp [handleWsClose, h, unregisterConn, mapGet_mapDelete_self]

/-- Witness for the amended C2 at a concrete registry holding the newer
handle for user "u". -/
theorem c2_amended_witness :
    mapGet (handleWsClose [("u", ⟨2, WS_OPEN⟩)] ⟨some "u"⟩) "u" = none :=
  c2_amended_close_deletes_unconditionally [("u", ⟨2, WS_OPEN⟩)] "u" (by decide)

/-- C10: a single socket that authenticates as u1 and later as u2 leaves
the registry with entries for both users pointing at the same socket; the
close handler then only removes the u2 entry (the current binding), so
lookup of u1 still returns the now-closed handle. -/
theorem c10_rebind_leaves_stale_entry (storage : String → Option Conv)
    (w : WSocket) (u1 u2 : String) (h1 : u1 ≠ "") (h2 : u2 ≠ "")
    (h12 : u1 ≠ u2) :
    let step1 := handleWsFrame storage w [] ⟨none⟩
      (some ⟨"auth", some u1, none, none⟩)
    let step2 := handleWsFrame storage w step1.2.1 step1.1
      (some ⟨"auth", some u2, none, none⟩)
    let reg3 := handleWsClose step2.2.1 step2.1
    mapGet step2.2.1 u1 = some w ∧ mapGet step2.2.1 u2 = some w ∧
    mapGet reg3 u1 = some w ∧ mapGet reg3 u2 = none := by
  simp only [handleWsFrame_auth storage w [] ⟨none⟩ u1 h1,
    handleWsFrame_auth storage w _ _ u2 h2]
  simp [registerConn, mapSet, mapDelete, mapGet, handleWsClose, unregisterConn,
    h2, h12, Ne.symm h12]

/-- Witness for C10 with users "alice" and "bob" on socket 7. -/
theorem c10_witness :
    let step1 := handleWsFrame (fun _ => none) ⟨7, WS_OPEN⟩ [] ⟨none⟩
      (some ⟨"auth", some "alice", none, none⟩)
    let step2 := handleWsFrame (fun _ => none) ⟨7, WS_OPEN⟩ step1.2.1 step1.1
      (some ⟨"auth", some "bob", none, none⟩)
    let reg3 := handleWsClose step2.2.1 step2.1
    mapGet step2.2.1 "alice" = some ⟨7, WS_OPEN⟩ ∧
    mapGet step2.2.1 "bob" = some ⟨7, WS_OPEN⟩ ∧
    mapGet reg3 "alice" = some ⟨7, WS_OPEN⟩ ∧ mapGet reg3 "bob" = none :=
  c10_rebind_leaves_stale_entry (fun _ => none) ⟨7, WS_OPEN⟩ "alice" "bob"
    (by decide) (by decide) (by decide)

/-- C3: broadcasting a `new_message` to participants {A, B, C} where only
A and C hold live (registered, OPEN) handles performs exactly one write to
A, exactly one write to C, and no write for B; the offline participant is
skipped with no queuing or retry — the write list is just the two sends. -/
theorem c3_broadcast_only_online (reg : Registry) (a b c : String)
    (wa wc : WSocket) (cid : String) (m : MessageRec)
    (hab : a ≠ b) (hac : a ≠ c) (hbc : b ≠ c)
    (ha : mapGet reg a = some wa) (hao : wa.readyState = WS_OPEN)
    (hc : mapGet reg c = some wc) (hco : wc.readyState = WS_OPEN)
    (hb : mapGet reg b = none) :
    broadcastNewMessage reg [a, b, c] cid m =
      [⟨a, wa, .newMessageEvt cid m⟩, ⟨c, wc, .newMessageEvt cid m⟩] ∧
    (broadcastNewMessage reg [a, b, c] cid m).countP
      (fun w => w.recipient == a) = 1 ∧
    (broadcastNewMessage reg [a, b, c] cid m).countP
      (fun w => w.recipient == c) = 1 ∧
    (broadcastNewMessage reg [a, b, c] cid m).countP
      (fun w => w.recipient == b) = 0 := by
  have hlist : broadcastNewMessage reg [a, b, c] cid m =
      [⟨a, wa, .newMessageEvt cid m⟩, ⟨c, wc, .newMessageEvt cid m⟩] := by
    simp [broadcastNewMessage, ha, hb, hc, hao, hco]
  refine ⟨hlist, ?_, ?_, ?_⟩ <;>
    simp [hlist, List.countP_cons, hab, hac, hbc, Ne.symm hac, Ne.symm hbc]

/-- Witness for C3: registry holds OPEN sockets for "a" and "c" only. -/
theorem c3_witness :
    broadcastNewMessage [("a", ⟨1, WS_OPEN⟩), ("c", ⟨2, WS_OPEN⟩)] ["a", "b", "c"]
      "c1" ⟨"m1", "c1", "a", "hi"⟩ =
      [⟨"a", ⟨1, WS_OPEN⟩, .newMessageEvt "c1" ⟨"m1", "c1", "a", "hi"⟩⟩,
       ⟨"c", ⟨2, WS_OPEN⟩, .newMessageEvt "c1" ⟨"m1", "c1", "a", "hi"⟩⟩] :=
  (c3_broadcast_only_online [("a", ⟨1, WS_OPEN⟩), ("c", ⟨2, WS_OPEN⟩)] "a" "b" "c"
    ⟨1, WS_OPEN⟩ ⟨2, WS_OPEN⟩ "c1" ⟨"m1", "c1", "a", "hi"⟩
    (by decide) (by decide) (by decide) rfl rfl rfl rfl rfl).1

/-- C4 counterexample: sender "s" is connected with an OPEN registered
handle and sends a message in a conversation with participants ["s", "b"].
The claim says the sender's handle never receives the push; in fact the
broadcast loop does not exclude the sender and writes the event to the
sender's own handle. -/
theorem c4_counterexample :
    broadcastNewMessage [("s", ⟨1, WS_OPEN⟩)] ["s", "b"] "c1"
      ⟨"m1", "c1", "s", "hi"⟩ =
      [⟨"s", ⟨1, WS_OPEN⟩, .newMessageEvt "c1" ⟨"m1", "c1", "s", "hi"⟩⟩] ∧
    (broadcastNewMessage [("s", ⟨1, WS_OPEN⟩)] ["s", "b"] "c1"
      ⟨"m1", "c1", "s", "hi"⟩).countP (fun w => w.recipient == "s") ≠ 0 := by
  constructor <;> decide

/-- C4 amended: the `new_message` broadcast loop does not exclude the
sender.  A sender with a registered OPEN handle receives its own push: the
broadcast performs one write to the sender's handle per occurrence of the
sender in the participant list (in addition to the REST response carrying
the message). -/
theorem c4_amended_sender_receives_own_push (reg : Registry)
    (ps : List String) (s : String) (ws : WSocket) (cid : String)
    (m : MessageRec) (hs : mapGet reg s = some ws)
    (ho : ws.readyState = WS_OPEN) :
    (broadcastNewMessage reg ps cid m).countP
      (fun w => w.recipient == s) = ps.count s := by
  induction ps with
  | nil => rfl
  | cons p rest ih =>
    simp only [broadcastNewMessage] at ih ⊢
    rw [List.filterMap_cons]
    by_cases hp : p = s
    · subst hp
      simp [hs, ho, List.countP_cons, List.count_cons, ih]
    · cases hm : mapGet reg p with
      | none => simp [hm, List.count_cons, hp, ih]
      | some pws =>
        by_cases hpo : pws.readyState = WS_OPEN
        · simp [hm, hpo, List.countP_cons, List.count_cons, hp, ih]
        · simp [hm, hpo, List.count_cons, hp, ih]

/-- Witness for the amended C4: sender "s" occurs once among the
participants and receives exactly one write. -/
theorem c4_amended_witness :
    (broadcastNewMessage [("s", ⟨1, WS_OPEN⟩)] ["s", "b"] "c1"
      ⟨"m1", "c1", "s", "hi"⟩).countP (fun w => w.recipient == "s") =
      (["s", "b"] : List String).count "s" :=
  c4_amended_sender_receives_own_push [("s", ⟨1, WS_OPEN⟩)] ["s", "b"] "s"
    ⟨1, WS_OPEN⟩ "c1" ⟨"m1", "c1", "s", "hi"⟩ rfl rfl

/-- C5 counterexample: `storage.createMessage` succeeds but the subsequent
`storage.getConversation` throws during the broadcast.  The claim says the
sender's request still completes successfully with the persisted message;
in fact the handler's catch-all answers 500 and the persisted message is
not returned. -/
theorem c5_counterexample :
    postMessageHandler true (.ok ⟨"m1", "c1", "a", "hi"⟩) (.error ()) [] "c1" =
      ⟨500, none, []⟩ ∧
    (postMessageHandler true (.ok ⟨"m1", "c1", "a", "hi"⟩) (.error ()) []
      "c1").body ≠ some ⟨"m1", "c1", "a", "hi"⟩ := by
  constructor <;> decide

/-- C5 amended: after a successful `createMessage`, a conversation lookup
that throws is caught by the handler's single catch block, which answers
500 with no message body even though the message was persisted.  Only a
lookup that resolves with no conversation skips the broadcast while still
answering 200 with the message, and when a conversation is found the
response is 200 with the message regardless of which participants are
offline (offline recipients only lose the push). -/
theorem c5_amended_lookup_throw_surfaces_500 (m : MessageRec) (reg : Registry)
    (cid : String) (conv : Conv) :
    postMessageHandler true (.ok m) (.error ()) reg cid = ⟨500, none, []⟩ ∧
    postMessageHandler true (.ok m) (.ok none) reg cid = ⟨200, some m, []⟩ ∧
    (postMessageHandler true (.ok m) (.ok (some conv)) reg cid).status = 200 ∧
    (postMessageHandler true (.ok m) (.ok (some conv)) reg cid).body = some m :=
  ⟨rfl, rfl, rfl, rfl⟩

/-- C6: on a close event with attempt count N below the ceiling of 5,
exactly one reconnect timer is scheduled, with delay 1000 ms times 2^N;
once N has reached the ceiling no reconnect is scheduled, and in either
case the connection state surfaces disconnected. -/
theorem c6_reconnect_backoff (st : ClientConn) :
    (st.reconnectAttempts < maxReconnectAttempts →
      (wsOnClose st).2 = some (1000 * 2 ^ st.reconnectAttempts)) ∧
    (maxReconnectAttempts ≤ st.reconnectAttempts → (wsOnClose st).2 = none) ∧
    (wsOnClose st).1.isConnected = false := by
  refine ⟨fun h => ?_, fun h => ?_, rfl⟩
  · simp [wsOnClose, h, Nat.mul_comm]
  · simp [wsOnClose, Nat.not_lt.mpr h]

/-- Witness for C6: attempt 2 schedules a 4000 ms reconnect; attempt 5
schedules nothing. -/
theorem c6_witness :
    (wsOnClose ⟨2, true⟩).2 = some 4000 ∧ (wsOnClose ⟨5, true⟩).2 = none := by
  constructor
  · simpa using (c6_reconnect_backoff ⟨2, true⟩).1 (by decide)
  · exact (c6_reconnect_backoff ⟨5, true⟩).2.1 (by decide)

/-- C7: processing a pushed `new_message` payload is idempotent with
respect to the message id.  The client handler never appends the payload
to the cached list; it only marks the message-list query stale, and the
subsequent refetch replaces the cache with the REST endpoint's list, in
which the persisted message id occurs exactly once (message ids are
generated uuid primary keys).  So feeding the identical payload twice
leaves exactly one cache entry for that id, and the second application
changes nothing at all. -/
theorem c7_client_merge_idempotent (c : QueryCache) (cid : Option String)
    (m : MessageRec) (server : List MessageRec)
    (hserver : server.countP (fun x => x.id == m.id) = 1) :
    clientHandleMessage (clientHandleMessage c ⟨"new_message", cid, some m⟩)
        ⟨"new_message", cid, some m⟩ =
      clientHandleMessage c ⟨"new_message", cid, some m⟩ ∧
    (clientHandleMessage c ⟨"new_message", cid, some m⟩).messages =
      c.messages ∧
    (refetchMessages server
        (clientHandleMessage (clientHandleMessage c
          ⟨"new_message", cid, some m⟩)
          ⟨"new_message", cid, some m⟩)).messages.countP
      (fun x => x.id == m.id) = 1 := by
  refine ⟨?_, ?_, hserver⟩
  · by_cases h : truthyStr cid <;> simp [clientHandleMessage, h]
  · by_cases h : truthyStr cid <;> simp [clientHandleMessage, h]

/-- Witness for C7 at a concrete payload and a server list holding the
message once. -/
theorem c7_witness :
    clientHandleMessage (clientHandleMessage ⟨[], false⟩
        ⟨"new_message", some "c1", some ⟨"m1", "c1", "s", "hi"⟩⟩)
        ⟨"new_message", some "c1", some ⟨"m1", "c1", "s", "hi"⟩⟩ =
      clientHandleMessage ⟨[], false⟩
        ⟨"new_message", some "c1", some ⟨"m1", "c1", "s", "hi"⟩⟩ ∧
    (clientHandleMessage ⟨[], false⟩
        ⟨"new_message", some "c1", some ⟨"m1", "c1", "s", "hi"⟩⟩).messages =
      (⟨[], false⟩ : QueryCache).messages ∧
    (refetchMessages [⟨"m1", "c1", "s", "hi"⟩]
        (clientHandleMessage (clientHandleMessage ⟨[], false⟩
          ⟨"new_message", some "c1", some ⟨"m1", "c1", "s", "hi"⟩⟩)
          ⟨"new_message", some "c1", some ⟨"m1", "c1", "s", "hi"⟩⟩)).messages.countP
      (fun x => x.id == "m1") = 1 :=
  c7_client_merge_idempotent ⟨[], false⟩ (some "c1") ⟨"m1", "c1", "s", "hi"⟩
    [⟨"m1", "c1", "s", "hi"⟩] (by decide)

/-- C8: every write the typing relay emits goes to a participant other
than the sender and carries the typing event attributed to the sender's
userId — so no recipient ever receives a typing event attributed to
itself; and conversely every participant other than the sender whose
registered socket is OPEN does receive the relayed event. -/
theorem c8_typing_relay (reg : Registry) (ps : List String) (cid : String)
    (u : String) (t : Option Bool) :
    (∀ w ∈ typingRelay reg ps cid u t,
      w.recipient ≠ u ∧ w.event = .typingEvt cid u t) ∧
    (∀ p ∈ ps, p ≠ u → ∀ pws, mapGet reg p = some pws →
      pws.readyState = WS_OPEN →
      (⟨p, pws, .typingEvt cid u t⟩ : Write) ∈ typingRelay reg ps cid u t) := by
  constructor
  · intro w hw
    simp only [typingRelay] at hw
    rcases List.mem_filterMap.mp hw with ⟨p, hp, hf⟩
    rcases List.mem_filter.mp hp with ⟨_, hpu⟩
    have hpu' : p ≠ u := by simpa using hpu
    cases hm : mapGet reg p with
    | none => simp [hm] at hf
    | some pws =>
      simp only [hm] at hf
      by_cases hro : pws.readyState = WS_OPEN
      · rw [if_pos hro] at hf
        cases hf
        exact ⟨hpu', rfl⟩
      · rw [if_neg hro] at hf
        simp at hf
  · intro p hps hpu pws hm hro
    simp only [typingRelay]
    refine List.mem_filterMap.mpr ⟨p, List.mem_filter.mpr ⟨hps, by simpa using hpu⟩, ?_⟩
    simp [hm, hro]

/-- Witness for C8: participant "b" of conversation "c1" is connected and
receives the typing event attributed to sender "a". -/
theorem c8_witness :
    (⟨"b", ⟨1, WS_OPEN⟩, .typingEvt "c1" "a" (some true)⟩ : Write) ∈
      typingRelay [("b", ⟨1, WS_OPEN⟩)] ["a", "b"] "c1" "a" (some true) :=
  (c8_typing_relay [("b", ⟨1, WS_OPEN⟩)] ["a", "b"] "c1" "a" (some true)).2
    "b" (by decide) (by decide) ⟨1, WS_OPEN⟩ rfl rfl

/-- C9 counterexample: the frame `{"type":"auth"}` is valid JSON but not
an expected event shape (an auth event requires a string userId).  The
claim says such a frame leaves the session's state and identity binding
unchanged; in fact the handler executes `userId = message.userId` before
checking truthiness, resetting an existing binding "u1" to undefined. -/
theorem c9_counterexample :
    (handleWsFrame (fun _ => none) ⟨1, WS_OPEN⟩ [] ⟨some "u1"⟩
      (some ⟨"auth", none, none, none⟩)).1 = ⟨none⟩ ∧
    (⟨none⟩ : SessionState) ≠ ⟨some "u1"⟩ := by
  constructor <;> decide

/-- C9 amended: a frame on which `JSON.parse` throws is logged and dropped
with the session state, registry and writes all unchanged; however a
well-formed `auth` frame lacking a userId field resets the session's
identity binding to unset (registry untouched, no writes, connection kept
open). -/
theorem c9_amended_unparseable_dropped (storage : String → Option Conv)
    (ws : WSocket) (reg : Registry) (st : SessionState) :
    handleWsFrame storage ws reg st none = (st, reg, []) ∧
    handleWsFrame storage ws reg st (some ⟨"auth", none, none, none⟩) =
      (⟨none⟩, reg, []) := by
  constructor
  · rfl
  · simp [handleWsFrame, show ("auth" : String) ≠ "typing" from by decide]

end TeleChat
